import Mathlib

/-!
Verification of the WebSocket micro-benchmark `crossbench/python/bench_ws.py`.

The program builds a fixed JSON-RPC-like message, starts an in-process echo
server, connects one client, performs a warm-up round trip, then times a loop
of `iters` synchronous send/receive round trips, finally printing derived
metrics.

Shallow embedding conventions:
  * Python ints are modelled as `Int` (argparse accepts any integer, including
    negative values, for `--iters`, `--payload` and `--port`).
  * Python float division, which raises ZeroDivisionError on a zero divisor,
    is modelled as `pyDiv : Rat -> Rat -> Option Rat` returning `none` on a
    zero divisor; the float values themselves are modelled exactly as
    rationals (every quantity divided here is an integer, and 1e9 is the
    exact float 10^9).
  * The I/O behaviour of `run_benchmark` is modelled as the sequential trace
    of events it performs on its single connection (sends, receives, per
    iteration re-encodings, and the two timer reads), which is exactly the
    order the `async` code executes them in, since the function awaits each
    operation before starting the next.
  * The message value is a two-level JSON object, which is the exact shape of
    the one message this program ever constructs: top-level fields are
    numbers, strings, or one-level objects of numbers and strings.
-/

/-- Python's `"x" * payload`: a string of `payload` copies of the character
`x`; for a non-positive count Python yields the empty string, hence `Int.toNat`. -/
def payload_str (payload : Int) : String :=
  String.mk (List.replicate payload.toNat 'x')

/-- A JSON leaf value (number or string), as used by the benchmark message. -/
inductive JLeaf
| num (n : Int)
| str (s : String)
deriving DecidableEq

/-- A one-level JSON object: an ordered association list of string keys to leaves. -/
abbrev JObj := List (String × JLeaf)

/-- A JSON value of depth at most two: a leaf or a one-level object. -/
inductive J
| leaf (v : JLeaf)
| obj (o : JObj)
deriving DecidableEq

/-- A top-level JSON document: an ordered association list of keys to values. -/
abbrev JDoc := List (String × J)

/-- The message template built by `run_benchmark`:
`msg_obj = dict of id to 1, method to "test", params to a dict of data to payload_str`. -/
def msg_obj (payload : Int) : JDoc :=
  [("id", J.leaf (JLeaf.num 1)),
   ("method", J.leaf (JLeaf.str "test")),
   ("params", J.obj [("data", JLeaf.str (payload_str payload))])]

/-- An opening curly bracket as a one-character string. -/
def lbrace : String := String.singleton (Char.ofNat 123)

/-- A closing curly bracket as a one-character string. -/
def rbrace : String := String.singleton (Char.ofNat 125)

/-- Render a JSON leaf: numbers in decimal, strings quoted (the strings this
program serializes contain only ASCII letters, so no escaping arises). -/
def renderLeaf : JLeaf → String
| JLeaf.num n => toString n
| JLeaf.str s => "\"" ++ s ++ "\""

/-- Render one key/value pair in compact form. -/
def renderField (k : String) (v : String) : String :=
  "\"" ++ k ++ "\":" ++ v

/-- Render a one-level object in compact form. -/
def renderObj (o : JObj) : String :=
  lbrace ++ String.intercalate "," (o.map fun kv => renderField kv.1 (renderLeaf kv.2)) ++ rbrace

/-- Render a depth-two JSON value. -/
def renderJ : J → String
| J.leaf v => renderLeaf v
| J.obj o => renderObj o

/-- The serializer chosen at startup (`orjson.dumps` when available, else
`json.dumps(...).encode`); modelled as compact JSON text. Which library is
chosen affects only whitespace in the bytes, which no claim depends on. -/
def encode (d : JDoc) : String :=
  lbrace ++ String.intercalate "," (d.map fun kv => renderField kv.1 (renderJ kv.2)) ++ rbrace

/-- Field access on the top-level document (association-list lookup). -/
def getField (d : JDoc) (k : String) : Option J :=
  List.lookup k d

/-- The ordered list of top-level field names of a document. -/
def fieldNames (d : JDoc) : List String :=
  d.map Prod.fst

/-- The value of the `data` field inside the `params` object, when present. -/
def getParamsData (d : JDoc) : Option JLeaf :=
  match getField d "params" with
  | some (J.obj o) => List.lookup "data" o
  | _ => none

/-- One I/O event of `run_benchmark` on its connection: a send of encoded
bytes, a receive of one reply, a re-encoding of the template inside the timed
loop, or one of the two `time.perf_counter_ns` reads. -/
inductive Ev
| send (data : String)
| recv
| encodeMsg
| timerStart
| timerStop
deriving DecidableEq

/-- Whether an event is the starting timer read. -/
def isStart : Ev → Bool
| Ev.timerStart => true
| _ => false

/-- Whether an event is the stopping timer read. -/
def isStop : Ev → Bool
| Ev.timerStop => true
| _ => false

/-- Whether an event is a send. -/
def isSend : Ev → Bool
| Ev.send _ => true
| _ => false

/-- Whether an event is a receive. -/
def isRecv : Ev → Bool
| Ev.recv => true
| _ => false

/-- Whether an event is a re-encoding of the template. -/
def isEncode : Ev → Bool
| Ev.encodeMsg => true
| _ => false

/-- The body of one iteration of the timed loop:
`data = encode(msg_obj)` then `await ws.send(data)` then `await ws.recv()`. -/
def loopBody (d : String) : List Ev :=
  [Ev.encodeMsg, Ev.send d, Ev.recv]

/-- The connection event trace of `run_benchmark host port iters payload`
(host and port do not influence the trace): a warm-up send of the encoded
template and one discarded receive, the timer start, then
`for i in range(iters)` iterations of the loop body, then the timer stop.
Python's `range` of a non-positive bound is empty, hence `Int.toNat`. -/
def run_benchmark (iters payload : Int) : List Ev :=
  let d := encode (msg_obj payload)
  [Ev.send d, Ev.recv, Ev.timerStart] ++
    (List.replicate iters.toNat (loopBody d)).flatten ++ [Ev.timerStop]

/-- The events of a trace strictly before the starting timer read. -/
def warmupPart (l : List Ev) : List Ev :=
  l.takeWhile (fun e => !(isStart e))

/-- The events of a trace strictly between the two timer reads: the measured
interval. -/
def timedPart (l : List Ev) : List Ev :=
  ((l.dropWhile (fun e => !(isStart e))).drop 1).takeWhile (fun e => !(isStop e))

/-- Number of sends in a trace. -/
def sendCount (l : List Ev) : Nat := l.countP isSend

/-- Number of receives in a trace. -/
def recvCount (l : List Ev) : Nat := l.countP isRecv

/-- Number of re-encodings in a trace. -/
def encodeCount (l : List Ev) : Nat := l.countP isEncode

/-- Strict synchronous request/response discipline, checked left to right.
The boolean state records whether a request is outstanding: from the idle
state an encoding or a send is allowed (a send makes a request outstanding);
with a request outstanding only the one matching receive is allowed; the
trace must end idle. Any receive without a request, second send before the
reply, or unanswered send fails the check. -/
def okFrom : Bool → List Ev → Bool
| false, [] => true
| false, (Ev.encodeMsg :: r) => okFrom false r
| false, (Ev.send _ :: r) => okFrom true r
| true, (Ev.recv :: r) => okFrom false r
| _, _ => false

/-- Python float division: raises ZeroDivisionError on a zero divisor,
modelled as `none`; otherwise exact rational division (all dividends here are
integers, exactly representable). -/
def pyDiv (a b : Rat) : Option Rat :=
  if b = 0 then none else some (a / b)

/-- The metrics printed at the end of `run_benchmark`. -/
structure Metrics where
  ns_per : Rat
  ops_per_sec : Rat
  bytes_per : Nat
deriving DecidableEq

/-- The metric computation at the end of `run_benchmark`:
`ns_per = total_ns / iters` and `ops_per_sec = 1e9 * iters / total_ns`,
with `bytes_per` the length of one encoded message; `none` models the
ZeroDivisionError Python raises when a divisor is zero. -/
def run_benchmark_metrics (total_ns iters : Int) (bytes_per : Nat) : Option Metrics :=
  match pyDiv (total_ns : Rat) (iters : Rat) with
  | none => none
  | some np =>
    match pyDiv ((10 ^ 9 : Rat) * (iters : Rat)) (total_ns : Rat) with
    | none => none
    | some ops => some ⟨np, ops, bytes_per⟩

/-- One event on the server side of the connection, as seen by
`echo_handler`: a successfully received message, or an error raised by the
transport while reading or writing (for example an abrupt peer disconnect),
which ends the stream. -/
inductive ConnEv
| msg (m : String)
| connErr
deriving DecidableEq

/-- The body of `echo_handler` without its try/except: iterate over incoming
messages, sending each one back; an error event makes the exception propagate
out of the loop (second component true). -/
def echoLoop : List ConnEv → List String × Bool
| [] => ([], false)
| (ConnEv.connErr :: _) => ([], true)
| (ConnEv.msg m :: r) => ((m :: (echoLoop r).1), (echoLoop r).2)

/-- The handler `echo_handler`: the loop wrapped in try/except Exception
which just returns, so no exception ever escapes the handler. First
component: the replies sent; second component: whether the handler raised. -/
def echo_handler (evs : List ConnEv) : List String × Bool :=
  ((echoLoop evs).1, false)

/-- Whether a connection event is a successfully received message. -/
def isMsgEv : ConnEv → Bool
| ConnEv.msg _ => true
| _ => false

/-- The message content of a connection event, when it is a message. -/
def evMsg : ConnEv → Option String
| ConnEv.msg m => some m
| _ => none

/-- The messages received before the first transport error. -/
def msgsBeforeErr (evs : List ConnEv) : List String :=
  (evs.takeWhile isMsgEv).filterMap evMsg

/-- Which client/server implementation the benchmark run actually uses. -/
inductive SdkPath
| builtin
| alternate
deriving DecidableEq

/-- The observable outcome of the use-sdk block in `main`. -/
structure UseSdkOutcome where
  warned : Bool
  aborted : Bool
  path : SdkPath
deriving DecidableEq

/-- The use-sdk block of `main`, as a function of whether the flag is set and
whether the `pip install` subprocess succeeds. When the flag is set the code
runs `pip install` of the remote sdk inside try/except: on failure it prints
a warning to stderr and a falling-back notice; in every case control then
falls through to the same raw websockets/json benchmark path, and nothing
ever imports or uses the installed sdk. -/
def useSdkStep (useSdk : Bool) (installOk : Bool) : UseSdkOutcome :=
  if useSdk then
    if installOk then ⟨false, false, SdkPath.builtin⟩
    else ⟨true, false, SdkPath.builtin⟩
  else ⟨false, false, SdkPath.builtin⟩

/-- Python's `a or b` on integers: `a` when `a` is truthy (nonzero), else `b`. -/
def pyOrInt (a b : Int) : Int :=
  if a ≠ 0 then a else b

/-- The ports `main` uses: the port the echo server listens on
(`websockets.serve(echo_handler, args.host, port)`) and the port the client
connects to (`run_benchmark(args.host, port, ...)`). -/
structure MainSetup where
  listenPort : Int
  connectPort : Int
deriving DecidableEq

/-- Port resolution in `main`: `port = args.port or get_free_port()`, the one
resulting value being passed both to the server and to the client.
`get_free_port`, which asks the operating system for a free ephemeral port by
binding to port 0, is modelled by the parameter `osFreePort`. -/
def mainSetup (argsPort osFreePort : Int) : MainSetup :=
  let port := pyOrInt argsPort osFreePort
  ⟨port, port⟩

lemma mem_timedEvents {n : Nat} {d : String} {e : Ev}
    (h : e ∈ (List.replicate n (loopBody d)).flatten) :
    e = Ev.encodeMsg ∨ e = Ev.send d ∨ e = Ev.recv := by
  rcases List.mem_flatten.mp h with ⟨l, hl, he⟩
  rcases List.mem_replicate.mp hl with ⟨-, rfl⟩
  simp [loopBody] at he
  tauto

lemma takeWhile_append_stop (l : List Ev) (h : ∀ e ∈ l, (!(isStop e)) = true) :
    (l ++ [Ev.timerStop]).takeWhile (fun e => !(isStop e)) = l := by
  induction l with
  | nil => simp [List.takeWhile_cons, isStop]
  | cons a t ih =>
    have ha := h a (by simp)
    simp only [List.cons_append, List.takeWhile_cons, ha, if_true]
    rw [ih (fun e he => h e (by simp [he]))]

lemma timedPart_run (iters payload : Int) :
    timedPart (run_benchmark iters payload) =
      (List.replicate iters.toNat (loopBody (encode (msg_obj payload)))).flatten := by
  have hmem : ∀ e ∈ (List.replicate iters.toNat
      (loopBody (encode (msg_obj payload)))).flatten, (!(isStop e)) = true := by
    intro e he
    rcases mem_timedEvents he with rfl | rfl | rfl <;> simp [isStop]
  simp only [timedPart, run_benchmark, List.cons_append, List.nil_append,
    List.dropWhile_cons, isStart, Bool.not_false, Bool.not_true, if_true, if_false,
    Bool.false_eq_true, List.drop_succ_cons, List.drop_zero]
  exact takeWhile_append_stop _ hmem

lemma warmupPart_run (iters payload : Int) :
    warmupPart (run_benchmark iters payload) =
      [Ev.send (encode (msg_obj payload)), Ev.recv] := by
  simp [warmupPart, run_benchmark, List.takeWhile_cons, isStart]

lemma countP_flatten_replicate (p : Ev → Bool) (n : Nat) (b : List Ev) :
    ((List.replicate n b).flatten).countP p = n * b.countP p := by
  induction n with
  | zero => simp
  | succ k ih =>
    simp [List.replicate_succ, List.flatten_cons, List.countP_append, ih, Nat.succ_mul]
    ring

lemma okFrom_flatten_replicate (n : Nat) (d : String) :
    okFrom false (List.replicate n (loopBody d)).flatten = true := by
  induction n with
  | zero => simp [okFrom]
  | succ k ih =>
    simpa [List.replicate_succ, List.flatten_cons, loopBody, okFrom] using ih

lemma echoLoop_msgs (msgs : List String) :
    (echoLoop (msgs.map ConnEv.msg)).1 = msgs := by
  induction msgs with
  | nil => rfl
  | cons m r ih => simp [echoLoop, ih]

lemma echoLoop_replies (evs : List ConnEv) :
    (echoLoop evs).1 = msgsBeforeErr evs := by
  induction evs with
  | nil => rfl
  | cons a r ih =>
    cases a with
    | msg m =>
      simp [echoLoop, msgsBeforeErr, List.takeWhile_cons, isMsgEv, evMsg] at ih ⊢
      exact ih
    | connErr => simp [echoLoop, msgsBeforeErr, List.takeWhile_cons, isMsgEv]

/-- C1 (counterexample): at iteration count 0 the metric computation divides
`total_ns` by `iters = 0` and so raises ZeroDivisionError (modelled `none`)
instead of producing a defined, guarded result. -/
theorem iters_zero_metrics_cx : run_benchmark_metrics 12345 0 40 = none := by
  simp [run_benchmark_metrics, pyDiv]

/-- C1 (amended): with iteration count 0 the timed loop performs zero
measured round trips, but the metric computation divides by zero and raises,
for every elapsed time and byte size; no guarded result is produced. -/
theorem iters_zero_behavior (payload total_ns : Int) (b : Nat) :
    timedPart (run_benchmark 0 payload) = [] ∧
    run_benchmark_metrics total_ns 0 b = none := by
  constructor
  · rw [timedPart_run]
    simp
  · simp [run_benchmark_metrics, pyDiv]

/-- C2 (counterexample): even when the flag is set and the remote install
succeeds, the run does not use the alternate implementation. -/
theorem use_sdk_cx : ¬ ((useSdkStep true true).path = SdkPath.alternate) := by
  decide

/-- C2 (amended): with the flag set, the program attempts the remote install;
it never aborts the run, it warns exactly when the install fails, and in
every case it proceeds on the built-in websockets/json path — the alternate
implementation is never used, even when the install succeeds. -/
theorem use_sdk_always_builtin (installOk : Bool) :
    (useSdkStep true installOk).aborted = false ∧
    (useSdkStep true installOk).path = SdkPath.builtin ∧
    (useSdkStep true installOk).warned = !installOk := by
  cases installOk <;> exact ⟨rfl, rfl, rfl⟩

/-- C3: for every iteration count of at least 1, the measured interval of the
trace contains exactly `iters` sends, exactly `iters` receives, exactly
`iters` re-encodings of the template (so the warm-up round trip is excluded),
every send carries the encoded template, and the events follow the strict
synchronous one-send-then-one-reply discipline with no pipelining. -/
theorem timed_loop_shape (iters payload : Int) (h : 1 ≤ iters) :
    sendCount (timedPart (run_benchmark iters payload)) = iters.toNat ∧
    recvCount (timedPart (run_benchmark iters payload)) = iters.toNat ∧
    encodeCount (timedPart (run_benchmark iters payload)) = iters.toNat ∧
    okFrom false (timedPart (run_benchmark iters payload)) = true ∧
    ∀ e ∈ timedPart (run_benchmark iters payload), isSend e = true →
      e = Ev.send (encode (msg_obj payload)) := by
  rw [timedPart_run]
  refine ⟨?_, ?_, ?_, okFrom_flatten_replicate _ _, ?_⟩
  · rw [sendCount, countP_flatten_replicate]
    simp [loopBody, isSend]
  · rw [recvCount, countP_flatten_replicate]
    simp [loopBody, isRecv]
  · rw [encodeCount, countP_flatten_replicate]
    simp [loopBody, isEncode]
  · intro e he hs
    rcases mem_timedEvents he with rfl | rfl | rfl
    · simp [isSend] at hs
    · rfl
    · simp [isSend] at hs

/-- C3 (witness): the timed-loop shape at iteration count 2 and payload 1. -/
theorem timed_loop_shape_witness :
    (1 : Int) ≤ 2 ∧
      (sendCount (timedPart (run_benchmark 2 1)) = (2 : Int).toNat ∧
       recvCount (timedPart (run_benchmark 2 1)) = (2 : Int).toNat ∧
       encodeCount (timedPart (run_benchmark 2 1)) = (2 : Int).toNat ∧
       okFrom false (timedPart (run_benchmark 2 1)) = true ∧
       ∀ e ∈ timedPart (run_benchmark 2 1), isSend e = true →
         e = Ev.send (encode (msg_obj 1))) :=
  ⟨by decide, timed_loop_shape 2 1 (by decide)⟩

/-- C4: for every list of messages a client sends, including empty ones, the
echo handler replies with exactly the same byte contents in exactly the same
order, one reply per message, and raises nothing. -/
theorem echo_roundtrip (msgs : List String) :
    (echo_handler (msgs.map ConnEv.msg)).1 = msgs ∧
    (echo_handler (msgs.map ConnEv.msg)).2 = false :=
  ⟨echoLoop_msgs msgs, rfl⟩

/-- C5: for every configuration, the part of the trace before the starting
timer read is exactly one send of the encoded template followed by one
discarded receive: exactly one warm-up round trip, excluded from the
measured interval. -/
theorem warmup_single_roundtrip (iters payload : Int) :
    warmupPart (run_benchmark iters payload) =
      [Ev.send (encode (msg_obj payload)), Ev.recv] ∧
    sendCount (warmupPart (run_benchmark iters payload)) = 1 ∧
    recvCount (warmupPart (run_benchmark iters payload)) = 1 := by
  refine ⟨warmupPart_run iters payload, ?_, ?_⟩ <;>
    rw [warmupPart_run] <;> rfl

/-- C6: for positive iteration count and positive elapsed time, the computed
metrics are exactly `ns_per = T / N` and `ops_per_sec = 1e9 * N / T`, a pure
function of the pair. -/
theorem metrics_formula (T N : Int) (b : Nat) (hN : 0 < N) (hT : 0 < T) :
    run_benchmark_metrics T N b =
      some ⟨(T : Rat) / (N : Rat), (10 ^ 9 : Rat) * (N : Rat) / (T : Rat), b⟩ := by
  have hN' : ((N : Rat)) ≠ 0 := by exact_mod_cast hN.ne'
  have hT' : ((T : Rat)) ≠ 0 := by exact_mod_cast hT.ne'
  simp [run_benchmark_metrics, pyDiv, hN', hT']

/-- C6 (witness): the metric formulas at elapsed time 4 and count 2. -/
theorem metrics_formula_witness :
    (0 : Int) < 2 ∧ (0 : Int) < 4 ∧
      run_benchmark_metrics 4 2 7 =
        some ⟨((4 : Int) : Rat) / ((2 : Int) : Rat),
              (10 ^ 9 : Rat) * ((2 : Int) : Rat) / ((4 : Int) : Rat), 7⟩ :=
  ⟨by decide, by decide, metrics_formula 4 2 7 (by decide) (by decide)⟩

/-- C7: for every non-negative payload size P, the filler string has length
exactly P, and the constructed message is a flat object whose top-level
fields are exactly the numeric `id`, the method-name string, and the nested
`params` object holding that one filler string. -/
theorem msg_structure (P : Int) (h : 0 ≤ P) :
    ((payload_str P).length : Int) = P ∧
    fieldNames (msg_obj P) = ["id", "method", "params"] ∧
    getField (msg_obj P) "id" = some (J.leaf (JLeaf.num 1)) ∧
    getField (msg_obj P) "method" = some (J.leaf (JLeaf.str "test")) ∧
    getParamsData (msg_obj P) = some (JLeaf.str (payload_str P)) := by
  refine ⟨?_, rfl, rfl, rfl, rfl⟩
  have hl : (payload_str P).length = P.toNat := by
    simp [payload_str]
  rw [hl, Int.toNat_of_nonneg h]

/-- C7 (witness): the message structure at payload size 2. -/
theorem msg_structure_witness :
    (0 : Int) ≤ 2 ∧
      (((payload_str 2).length : Int) = 2 ∧
       fieldNames (msg_obj 2) = ["id", "method", "params"] ∧
       getField (msg_obj 2) "id" = some (J.leaf (JLeaf.num 1)) ∧
       getField (msg_obj 2) "method" = some (J.leaf (JLeaf.str "test")) ∧
       getParamsData (msg_obj 2) = some (JLeaf.str (payload_str 2))) :=
  ⟨by decide, msg_structure 2 (by decide)⟩

/-- C8: the one port value `main` resolves is used both for listening and for
connecting; when the configured port is 0 it is the operating-system-chosen
free port, and when it is nonzero it is used exactly as given. -/
theorem port_selection (argsPort osFreePort : Int) :
    (mainSetup argsPort osFreePort).listenPort =
      (mainSetup argsPort osFreePort).connectPort ∧
    (argsPort = 0 → (mainSetup argsPort osFreePort).listenPort = osFreePort) ∧
    (argsPort ≠ 0 → (mainSetup argsPort osFreePort).listenPort = argsPort) := by
  refine ⟨rfl, ?_, ?_⟩ <;> intro h <;> simp [mainSetup, pyOrInt, h]

/-- C8 (witness): port selection at configured port 0 and at configured
port 7, with operating-system port 55. -/
theorem port_selection_witness :
    ((0 : Int) = 0 ∧ (mainSetup 0 55).listenPort = 55) ∧
    ((7 : Int) ≠ 0 ∧ (mainSetup 7 55).listenPort = 7) :=
  ⟨⟨rfl, (port_selection 0 55).2.1 rfl⟩,
   ⟨by decide, (port_selection 7 55).2.2 (by decide)⟩⟩

/-- C9: on every incoming event stream, also one cut short by a transport
error, the echo handler returns without raising, having echoed exactly the
messages received before the first error. -/
theorem echo_handler_error_silent (evs : List ConnEv) :
    (echo_handler evs).2 = false ∧
    (echo_handler evs).1 = msgsBeforeErr evs :=
  ⟨rfl, echoLoop_replies evs⟩

/-- C10: for every negative payload size, which the command line accepts
without validation, the filler string is empty rather than of the configured
length, the message still carries an empty `data` field, and the run still
performs its warm-up round trip with that message. -/
theorem negative_payload (P : Int) (h : P < 0) :
    (payload_str P).length = 0 ∧
    getParamsData (msg_obj P) = some (JLeaf.str "") ∧
    warmupPart (run_benchmark 1 P) =
      [Ev.send (encode (msg_obj P)), Ev.recv] := by
  have hz : P.toNat = 0 := Int.toNat_of_nonpos h.le
  have hs : payload_str P = "" := by
    simp [payload_str, hz]
  refine ⟨?_, ?_, warmupPart_run 1 P⟩
  · rw [hs]
    rfl
  · show some (JLeaf.str (payload_str P)) = some (JLeaf.str "")
    rw [hs]

/-- C10 (witness): the negative-payload behaviour at payload size -3. -/
theorem negative_payload_witness :
    (-3 : Int) < 0 ∧
      ((payload_str (-3)).length = 0 ∧
       getParamsData (msg_obj (-3)) = some (JLeaf.str "") ∧
       warmupPart (run_benchmark 1 (-3)) =
         [Ev.send (encode (msg_obj (-3))), Ev.recv]) :=
  ⟨by decide, negative_payload (-3) (by decide)⟩
